import Mathlib

/-
Verification of the teaser-extraction and seen-set pipeline of
src/generate-rss.js (two script variants in one file).  The JavaScript is
shallowly embedded: JSON values become the inductive `JValue`, cheerio
selector results become records of the strings the code reads off the DOM,
the filesystem and HTTP collaborators become explicit inputs, and the JS
string operations used by the code (`includes`, `startsWith`, `||`, `trim`)
become the executable functions below.
-/

namespace NgRss

-- ---------------------------------------------------------------------------
-- JS string helpers
-- ---------------------------------------------------------------------------

/-- Char-list version of "needle matches at the front of the haystack". -/
def strLeads : List Char → List Char → Bool
  | [], _ => true
  | _ :: _, [] => false
  | a :: as, b :: bs => a == b && strLeads as bs

/-- Char-list version of substring containment. -/
def charsInclude (needle : List Char) : List Char → Bool
  | [] => strLeads needle []
  | h :: t => strLeads needle (h :: t) || charsInclude needle t

/-- JS `s.includes(sub)`: substring containment. -/
def jsIncludes (s sub : String) : Bool :=
  charsInclude sub.toList s.toList

/-- JS `s.startsWith(p)`. -/
def jsStartsWith (s p : String) : Bool :=
  strLeads p.toList s.toList

/-- JS `a || b` on strings: `a` when non-empty (truthy), else `b`. -/
def jsOr (a b : String) : String :=
  if a == "" then b else a

/-- JS `s.trim()`: strip leading and trailing whitespace (defined over the
character list so that it is kernel-executable). -/
def jsTrim (s : String) : String :=
  ⟨((s.data.dropWhile Char.isWhitespace).reverse.dropWhile Char.isWhitespace).reverse⟩

/-- src/generate-rss.js line 6: `const baseURL = "https://www.nationalgeographic.com"`. -/
def baseURL : String := "https://www.nationalgeographic.com"

-- ---------------------------------------------------------------------------
-- JSON values (the parsed __natgeo__ state)
-- ---------------------------------------------------------------------------

/-- A parsed JSON value, as produced by `JSON.parse`. -/
inductive JValue where
  | null
  | bool (b : Bool)
  | num (n : Int)
  | str (s : String)
  | arr (elems : List JValue)
  | obj (fields : List (String × JValue))

/-- First binding of a key in an object's field list. -/
def lookupF : List (String × JValue) → String → Option JValue
  | [], _ => none
  | (k, v) :: rest, key => if k == key then some v else lookupF rest key

/-- JS property access `j.key` on a JSON value (absent on non-objects). -/
def getF (j : JValue) (key : String) : Option JValue :=
  match j with
  | .obj fs => lookupF fs key
  | _ => none

/-- The string a field contributes in a JS `||` chain: its value when it is
a string (`""`, being falsy, behaves like an absent field), `""` otherwise. -/
def strField (j : JValue) (key : String) : String :=
  match getF j key with
  | some (.str s) => s
  | _ => ""

-- ---------------------------------------------------------------------------
-- pickImage (src/generate-rss.js lines 59-66)
-- ---------------------------------------------------------------------------

/-- The predicate of `img.crps.find(c => c.nm === name)`. -/
def cropNameIs (c : JValue) (name : String) : Bool :=
  match getF c "nm" with
  | some (.str s) => s == name
  | _ => false

/-- `Array.prototype.find` over the crop list. -/
def findCrop (name : String) : List JValue → Option JValue
  | [] => none
  | c :: rest => if cropNameIs c name then some c else findCrop name rest

/-- Lines 59-66: prefer the "16x9" crop, else "3x2", else the first crop;
if the chosen crop has a truthy `url` return it, else `img.src || img.rt || ""`.
The argument is `Option` because the call site passes `tile.img`, which may
be absent (`if (!img) return ""`). -/
def pickImage (img : Option JValue) : String :=
  match img with
  | none => ""
  | some imgObj =>
    match getF imgObj "crps" with
    | some (.arr crps) =>
      let crop :=
        match findCrop "16x9" crps with
        | some c => some c
        | none =>
          match findCrop "3x2" crps with
          | some c => some c
          | none => crps.head?
      match crop with
      | some c => jsOr (strField c "url") (jsOr (strField imgObj "src") (strField imgObj "rt"))
      | none => jsOr (strField imgObj "src") (strField imgObj "rt")
    | _ => jsOr (strField imgObj "src") (strField imgObj "rt")

-- ---------------------------------------------------------------------------
-- extractTilesFromState (src/generate-rss.js lines 73-126)
-- ---------------------------------------------------------------------------

/-- A teaser collected by variant 1 (`items.push({ title, link, image })`). -/
structure TeaserItem where
  title : String
  link : String
  image : String
deriving DecidableEq

/-- The mutable closure state of `extractTilesFromState`: the `items` array
and the `seenLinks` set (a JS `Set`, modelled by its insertion-ordered
member list). -/
structure ExtractState where
  items : List TeaserItem
  seenLinks : List String
deriving DecidableEq

/-- Lines 82-83: `tile.ctas && tile.ctas[0] && tile.ctas[0].url`. -/
def ctaUrl (tile : JValue) : String :=
  match getF tile "ctas" with
  | some (.arr (c0 :: _)) => strField c0 "url"
  | _ => ""

/-- Lines 77-101, `processTile`: resolve link (ctas[0].url, then url, then
href), title (title, then abstract), image; reject on empty link or empty
untrimmed title; absolutize the link against `baseURL`; reject links not
containing "nationalgeographic.com"; skip links already in `seenLinks`;
otherwise push `{title: title.trim(), link, image}`. -/
def processTile (st : ExtractState) (tile : JValue) : ExtractState :=
  match tile with
  | .obj _ =>
    let link0 := jsOr (ctaUrl tile) (jsOr (strField tile "url") (strField tile "href"))
    let title := jsOr (strField tile "title") (strField tile "abstract")
    let image := pickImage (getF tile "img")
    if link0 == "" || title == "" then st
    else
      let link := if jsStartsWith link0 "http" then link0 else baseURL ++ link0
      if !(jsIncludes link "nationalgeographic.com") then st
      else if st.seenLinks.contains link then st
      else { items := st.items ++ [{ title := jsTrim title, link := link, image := image }],
             seenLinks := st.seenLinks ++ [link] }
  | _ => st

/-- Lines 110-115: `cmsType.includes("Tile") || cmsType === "ArticleNavTile"
|| cmsType === "FeaturedContentTile"` (with `cmsType = obj.cmsType || ""`). -/
def tileTypeTest (cmsType : String) : Bool :=
  jsIncludes cmsType "Tile" || cmsType == "ArticleNavTile" || cmsType == "FeaturedContentTile"

mutual

/-- Lines 103-122, `walk`: depth-first over the state JSON.  Arrays recurse
into every element; objects are offered to `processTile` when their
`cmsType` passes `tileTypeTest`, then every field value is visited;
primitives are ignored. -/
def walk (st : ExtractState) : JValue → ExtractState
  | .arr xs => walkList st xs
  | .obj fs =>
    let st1 := if tileTypeTest (strField (.obj fs) "cmsType") then processTile st (.obj fs) else st
    walkFields st1 fs
  | _ => st

/-- Line 106: `obj.forEach(walk)`. -/
def walkList (st : ExtractState) : List JValue → ExtractState
  | [] => st
  | x :: xs => walkList (walk st x) xs

/-- Lines 119-121: `Object.values(obj).forEach(v => ... walk(v))`. -/
def walkFields (st : ExtractState) : List (String × JValue) → ExtractState
  | [] => st
  | (_, v) :: rest => walkFields (walk st v) rest

end

/-- Lines 73-126: walk the state object starting from empty `items` and
`seenLinks`, and return the collected items. -/
def extractTilesFromState (stateObj : JValue) : List TeaserItem :=
  (walk ⟨[], []⟩ stateObj).items

-- ---------------------------------------------------------------------------
-- fallbackScrape (src/generate-rss.js lines 158-179, variant 1)
-- ---------------------------------------------------------------------------

/-- One anchor matched by `"h2 a, h3 a, .PromoTile__Link,
.Card__Content__AnchorLink"`: the strings the code reads off it. -/
structure Anchor where
  href : Option String
  ariaLabel : Option String
  srOnlyText : String
  textContent : String

/-- Lines 162-176, the body of the `.each` callback, threading the
`items`/`seenLinks` closure state. -/
def fbStep (st : ExtractState) (a : Anchor) : ExtractState :=
  let href := a.href.getD ""
  let link := if jsStartsWith href "http" then href else baseURL ++ href
  if !(jsIncludes link "nationalgeographic.com") then st
  else if st.seenLinks.contains link then st
  else
    let title := jsOr (a.ariaLabel.getD "") (jsOr (jsTrim a.srOnlyText) (jsTrim a.textContent))
    if title == "" || title.length < 5 then st
    else { items := st.items ++ [{ title := title, link := link, image := "" }],
           seenLinks := st.seenLinks ++ [link] }

/-- Lines 158-179: the last-resort anchor scan. -/
def fallbackScrape (anchors : List Anchor) : List TeaserItem :=
  (anchors.foldl fbStep ⟨[], []⟩).items

/-- Lines 192-201 of `generateRSS` (variant 1): `parseNatGeoState` yields
either a parsed state object or `null`; with a state object the structured
walk's result is used, otherwise the DOM fallback scrape runs. -/
def chooseItems (stateObj : Option JValue) (anchors : List Anchor) : List TeaserItem :=
  match stateObj with
  | some s => extractTilesFromState s
  | none => fallbackScrape anchors

-- ---------------------------------------------------------------------------
-- scrapeHomepageTeasers (src/generate-rss.js lines 508-567, variant 2)
-- ---------------------------------------------------------------------------

/-- A teaser pushed by variant 2's scraper. -/
structure Teaser2 where
  title : String
  link : String
  description : String
  author : String
  date : String
  image : String
  topic : String
  summary : String
deriving DecidableEq

/-- One card container matched by `"div[class*='Card'], div[class*='Promo'],
div[class*='card'], article"`: the strings strategy 1 reads off it. -/
structure Card where
  headlineHref : Option String
  articleHref : Option String
  headlineText : String
  titleText : String
  imgSrc : Option String
  imgDataSrc : Option String
  bylineLinkText : String
  bylineText : String
  timeDatetime : Option String
  dateText : String
  kickerLinkText : String
  categoryText : String
  dekText : String

/-- Lines 512-552, strategy 1 per card: headline href or any
`a[href*='/article']` href; trimmed headline text or `[class*='Title']`
text; reject on empty title or href; keep only hrefs containing one of the
known path segments; absolutize; resolve optional fields. -/
def scrapeCard (c : Card) : Option Teaser2 :=
  let href := jsOr (c.headlineHref.getD "") (c.articleHref.getD "")
  let title := jsOr (jsTrim c.headlineText) (jsTrim c.titleText)
  if title == "" || href == "" then none
  else if !(jsIncludes href "/article") && !(jsIncludes href "/animals/") &&
          !(jsIncludes href "/environment/") && !(jsIncludes href "/science/") &&
          !(jsIncludes href "/history-culture/") && !(jsIncludes href "/travel/") &&
          !(jsIncludes href "/photography/") then none
  else
    let link := if jsStartsWith href "http" then href else baseURL ++ href
    some { title := title
           link := link
           description := ""
           author := jsOr (jsTrim c.bylineLinkText) (jsTrim c.bylineText)
           date := jsOr (c.timeDatetime.getD "") (jsTrim c.dateText)
           image := jsOr (c.imgSrc.getD "") (c.imgDataSrc.getD "")
           topic := jsOr (jsTrim c.kickerLinkText) (jsTrim c.categoryText)
           summary := jsTrim c.dekText }

/-- One anchor matched by `"a[href*='/article']"` in strategy 2. -/
structure ArticleAnchor where
  href : Option String
  textContent : String
  headingText : String

/-- Lines 556-563, strategy 2 per anchor: absolutized href; trimmed anchor
text or nested heading text; reject empty or shorter-than-5 titles. -/
def anchorTeaser (a : ArticleAnchor) : Option Teaser2 :=
  let href := a.href.getD ""
  let link := if jsStartsWith href "http" then href else baseURL ++ href
  let title := jsOr (jsTrim a.textContent) (jsTrim a.headingText)
  if title == "" || title.length < 5 then none
  else some { title := title, link := link, description := "", author := "", date := "",
              image := "", topic := "", summary := "" }

/-- Lines 508-567: strategy 1 over the cards; strategy 2 over the article
anchors only when strategy 1 produced nothing. -/
def scrapeHomepageTeasers (cards : List Card) (anchors : List ArticleAnchor) : List Teaser2 :=
  let items := cards.filterMap scrapeCard
  if items.length == 0 then anchors.filterMap anchorTeaser else items

-- ---------------------------------------------------------------------------
-- New-item filter (src/generate-rss.js lines 205 and 595)
-- ---------------------------------------------------------------------------

/-- `allItems.filter(item => !seenURLs.has(item.link))` (the seen set is
modelled by its member list). -/
def filterNew (seenURLs : List String) (allItems : List Teaser2) : List Teaser2 :=
  allItems.filter (fun item => !(seenURLs.contains item.link))

-- ---------------------------------------------------------------------------
-- Seen-set store (src/generate-rss.js lines 17-34)
-- ---------------------------------------------------------------------------

/-- What reading `seen.json` can yield: the file is absent
(`fs.existsSync` false), reading throws, `JSON.parse` throws, or a JSON
value is parsed. -/
inductive SeenResource where
  | absent
  | unreadable
  | unparseable
  | parsed (data : JValue)

/-- Lines 17-29, `loadSeenURLs`: absent file, read error and parse error
all fall to the empty set; a parsed value builds
`new Set(Array.isArray(data) ? data : [])`.  The JS `Set` is modelled by
the list of its members (the pipeline only uses membership). -/
def loadSeenURLs : SeenResource → List JValue
  | .absent => []
  | .unreadable => []
  | .unparseable => []
  | .parsed data =>
    match data with
    | .arr xs => xs
    | _ => []

-- ---------------------------------------------------------------------------
-- Enrichment loop (src/generate-rss.js lines 605-619, variant 2)
-- ---------------------------------------------------------------------------

/-- Observable events of the enrichment loop, in program order: a full
article fetch, and a `saveSeenURLs` persisting a snapshot of the set. -/
inductive FeedEvent where
  | fetchArticle (link : String)
  | saveSeen (snapshot : List String)

/-- JS `Set.prototype.add` on the member-list model. -/
def addSeen (seenURLs : List String) (link : String) : List String :=
  if seenURLs.contains link then seenURLs else seenURLs ++ [link]

/-- Lines 605-619: for each new item in order, fetch its full article, add
its link to the seen set, and persist the whole set, before moving to the
next item. -/
def enrichTrace : List Teaser2 → List String → List FeedEvent
  | [], _ => []
  | item :: rest, seenURLs =>
    let seen1 := addSeen seenURLs item.link
    .fetchArticle item.link :: .saveSeen seen1 :: enrichTrace rest seen1

-- ---------------------------------------------------------------------------
-- fetchFullArticle (src/generate-rss.js lines 360-491, variant 2)
-- ---------------------------------------------------------------------------

/-- A DOM node of the article body container, for the cleanup pass. -/
inductive BNode where
  | text (s : String)
  | el (tag : String) (attrs : List (String × String)) (children : List BNode)

/-- Attribute lookup on an element. -/
def attrVal : List (String × String) → String → Option String
  | [], _ => none
  | (k, v) :: rest, key => if k == key then some v else attrVal rest key

/-- Whether the element's `class` attribute contains the substring, as the
`[class*='...']` selectors test it. -/
def classHas (attrs : List (String × String)) (sub : String) : Bool :=
  match attrVal attrs "class" with
  | some c => jsIncludes c sub
  | none => false

/-- Lines 449-454: the substructures `fetchFullArticle` removes from the
body: ad slots, newsletter prompts, related-content cards, promos,
social-share widgets, and script/style elements. -/
def removedBySelectors (tag : String) (attrs : List (String × String)) : Bool :=
  tag == "script" || tag == "style" ||
  classHas attrs "ad-slot" || classHas attrs "newsletter" || classHas attrs "related" ||
  classHas attrs "promo" || classHas attrs "social-share"

/-- Lines 460-465: rewrite a root-relative `src` attribute of an `img`
against `baseURL`. -/
def rewriteImgSrc (attrs : List (String × String)) : List (String × String) :=
  attrs.map (fun p => if p.1 == "src" && jsStartsWith p.2 "/" then (p.1, baseURL ++ p.2) else p)

mutual

/-- Lines 447-465 fused into one pass over a body node: drop removed
subtrees, strip `style` attributes, absolutize `img` sources. -/
def cleanNode : BNode → Option BNode
  | .text s => some (.text s)
  | .el tag attrs children =>
    if removedBySelectors tag attrs then none
    else
      let attrs1 := attrs.filter (fun p => !(p.1 == "style"))
      let attrs2 := if tag == "img" then rewriteImgSrc attrs1 else attrs1
      some (.el tag attrs2 (cleanList children))

/-- The cleanup pass over a node list. -/
def cleanList : List BNode → List BNode
  | [] => []
  | n :: rest =>
    match cleanNode n with
    | some m => m :: cleanList rest
    | none => cleanList rest

end

/-- Serialization of an attribute list. -/
def renderAttrs : List (String × String) → String
  | [] => ""
  | (k, v) :: rest => " " ++ k ++ "=\"" ++ v ++ "\"" ++ renderAttrs rest

mutual

/-- `bodyEl.html()`: serialize a node. -/
def renderNode : BNode → String
  | .text s => s
  | .el tag attrs children =>
    "<" ++ tag ++ renderAttrs attrs ++ ">" ++ renderList children ++ "</" ++ tag ++ ">"

/-- Serialize a node list. -/
def renderList : List BNode → String
  | [] => ""
  | n :: rest => renderNode n ++ renderList rest

end

/-- The strings `fetchFullArticle` reads off the fetched article page via
its selector chains (lines 367-476): each field is the corresponding
cheerio query's result. -/
structure ArticlePage where
  heroFound : Bool
  heroSrc : Option String
  heroDataSrc : Option String
  heroAlt : Option String
  categoryText : String
  kickerText : String
  topicText : String
  headingText : String
  subtitleText : String
  dekText : String
  introText : String
  bylineNameText : String
  bylineAnchorText : String
  authorText : String
  bylineDateText : String
  timeDatetime : Option String
  dateText : String
  bodyChildren : Option (List BNode)
  paraTexts : List String

/-- Lines 365-485: assemble `fullContent` from the page fields exactly as
the source concatenates it. -/
def buildArticleHtml (url : String) (page : ArticlePage) : String :=
  let hero :=
    if page.heroFound then
      let src := jsOr (page.heroSrc.getD "") (page.heroDataSrc.getD "")
      let alt := page.heroAlt.getD ""
      if !(src == "") then
        "<p><img src=\"" ++ src ++ "\" alt=\"" ++ alt ++ "\" style=\"max-width:100%;border-radius:6px;\"/></p>"
      else ""
    else ""
  let topic := jsOr (jsTrim page.categoryText) (jsOr (jsTrim page.kickerText) (jsTrim page.topicText))
  let topicFrag :=
    if !(topic == "") then
      "<p><strong style=\"text-transform:uppercase;font-size:0.85em;color:#666;\">" ++ topic ++ "</strong></p>"
    else ""
  let title := jsTrim page.headingText
  let subtitle := jsOr (jsTrim page.subtitleText) (jsOr (jsTrim page.dekText) (jsTrim page.introText))
  let titleFrag :=
    if !(title == "") then "<h1 style=\"font-size:1.6em;margin-bottom:4px;\">" ++ title ++ "</h1>" else ""
  let subtitleFrag :=
    if !(subtitle == "") then
      "<h2 style=\"font-size:1.1em;color:#444;font-weight:normal;margin-top:0;\">" ++ subtitle ++ "</h2>"
    else ""
  let author := jsOr (jsTrim page.bylineNameText) (jsOr (jsTrim page.bylineAnchorText) (jsTrim page.authorText))
  let date := jsOr (jsTrim page.bylineDateText) (jsOr (page.timeDatetime.getD "") (jsTrim page.dateText))
  let bylineFrag :=
    if !(author == "") || !(date == "") then
      "<p style=\"font-size:0.9em;color:#666;\">"
        ++ (if !(author == "") then "By <strong>" ++ author ++ "</strong>" else "")
        ++ (if !(author == "") && !(date == "") then " &nbsp;|&nbsp; " else "")
        ++ (if !(date == "") then "Published " ++ date else "")
        ++ "</p>"
    else ""
  let rule := "<hr style=\"border:none;border-top:1px solid #ddd;margin:16px 0;\"/>"
  let body :=
    match page.bodyChildren with
    | some children => renderList (cleanList children)
    | none =>
      let paras := (page.paraTexts.map (fun t => "<p>" ++ jsTrim t ++ "</p>")).filter
        (fun p => decide (p.length > 15))
      jsOr (String.join paras) "<p>Full content could not be retrieved.</p>"
  let footer :=
    "\n      <hr style=\"border:none;border-top:1px solid #ddd;margin:24px 0 12px;\"/>\n      <p style=\"font-size:0.85em;color:#888;\">\n        <a href=\"" ++ url ++ "\" target=\"_blank\">Read the original article on National Geographic →</a>\n      </p>"
  hero ++ topicFrag ++ titleFrag ++ subtitleFrag ++ bylineFrag ++ rule ++ body ++ footer

/-- Lines 488-490, the catch branch: the placeholder markup linking to the
original article. -/
def articlePlaceholder (url : String) : String :=
  "<p><em>Full article could not be loaded. <a href=\"" ++ url ++ "\">Read on National Geographic</a>.</em></p>"

/-- Lines 360-491, `fetchFullArticle`: the fetch-and-parse collaborator's
outcome is the argument; on success the article markup is assembled, on a
fetch failure the placeholder is returned (the whole body is wrapped in
try/catch, so the caller never sees the error). -/
def fetchFullArticle (url : String) : Except String ArticlePage → String
  | .ok page => buildArticleHtml url page
  | .error _ => articlePlaceholder url

/-- Concrete teaser items for the C5 scenario: links under the base URL. -/
def exItemA : Teaser2 :=
  { title := "A", link := "https://www.nationalgeographic.com/a", description := "",
    author := "", date := "", image := "", topic := "", summary := "" }

def exItemB : Teaser2 :=
  { title := "B", link := "https://www.nationalgeographic.com/b", description := "",
    author := "", date := "", image := "", topic := "", summary := "" }

/-- The C9 scenario's image object: crop list `[{nm:"3x2",url:"X"},{nm:"16x9",url:"Y"}]`. -/
def exampleCropImg : JValue :=
  .obj [("crps", .arr [.obj [("nm", .str "3x2"), ("url", .str "X")],
                       .obj [("nm", .str "16x9"), ("url", .str "Y")]])]

/-- A crop named "3x2" with url "Z", for the C9 witness. -/
def crop32Only : JValue := .obj [("nm", .str "3x2"), ("url", .str "Z")]

/-- A parsed state object holding no tile node at all. -/
def emptyStateDoc : JValue := .obj [("hub", .str "x")]

/-- An anchor the fallback scrape accepts (on-domain, long title). -/
def richAnchor : Anchor :=
  { href := some "/article/x", ariaLabel := none, srOnlyText := "",
    textContent := "Amazing Sharks Story" }

/-- A card whose headline link is an absolute off-domain article URL. -/
def offDomainCard : Card :=
  { headlineHref := some "https://evil.com/article/x", articleHref := none,
    headlineText := "Evil Story Headline", titleText := "", imgSrc := none,
    imgDataSrc := none, bylineLinkText := "", bylineText := "", timeDatetime := none,
    dateText := "", kickerLinkText := "", categoryText := "", dekText := "" }

/-- An `a[href*='/article']` anchor with an absolute off-domain href. -/
def offDomainAnchor : ArticleAnchor :=
  { href := some "https://evil.com/article/x", textContent := "Evil Story Headline",
    headingText := "" }

/-- A tile whose title is whitespace-only but whose link is valid. -/
def wsTitleTile : JValue :=
  .obj [("cmsType", .str "FeaturedContentTile"), ("title", .str "   "), ("url", .str "/a")]

/-- Concrete new items for the C6 witness. -/
def witNewItem1 : Teaser2 :=
  { title := "First", link := "https://www.nationalgeographic.com/animals/first", description := "",
    author := "", date := "", image := "", topic := "", summary := "" }

def witNewItem2 : Teaser2 :=
  { title := "Second", link := "https://www.nationalgeographic.com/science/second", description := "",
    author := "", date := "", image := "", topic := "", summary := "" }

def StInv (st : ExtractState) : Prop :=
  st.items.map TeaserItem.link = st.seenLinks ∧ st.seenLinks.Nodup ∧
  ∀ t ∈ st.items, jsStartsWith t.link "http" = true ∧
    jsIncludes t.link "nationalgeographic.com" = true

theorem strLeads_self_append (p y : List Char) : strLeads p (p ++ y) = true := by
  induction p with
  | nil => rfl
  | cons a as ih => simp [strLeads, ih]

theorem startsWith_absolutized (x : String) : jsStartsWith (baseURL ++ x) "http" = true := by
  have hdec : (baseURL ++ x).data = "http".data ++ ("s://www.nationalgeographic.com".data ++ x.data) := by
    rw [String.data_append]
    have hb : baseURL.data = "http".data ++ "s://www.nationalgeographic.com".data := by decide
    rw [hb, List.append_assoc]
  show strLeads "http".data (baseURL ++ x).data = true
  rw [hdec]
  exact strLeads_self_append _ _

/-- The invariant the state of the structured walk maintains: collected item
links mirror `seenLinks`, `seenLinks` has no duplicates, and every collected
link is absolute and contains the target domain. -/

theorem push_inv (st : ExtractState) (title link image : String) (h : StInv st)
    (hsw : jsStartsWith link "http" = true)
    (hdom : jsIncludes link "nationalgeographic.com" = true)
    (hmem : link ∉ st.seenLinks) :
    StInv { items := st.items ++ [{ title := title, link := link, image := image }],
            seenLinks := st.seenLinks ++ [link] } := by
  obtain ⟨h1, h2, h3⟩ := h
  refine ⟨by simp [h1], by simp [List.nodup_append, h2, hmem], ?_⟩
  intro t ht
  rcases List.mem_append.mp ht with hold | hnew
  · exact h3 t hold
  · rcases List.mem_singleton.mp hnew with rfl
    exact ⟨hsw, hdom⟩

theorem processTile_inv (st : ExtractState) (tile : JValue) (h : StInv st) :
    StInv (processTile st tile) := by
  cases tile with
  | obj fs =>
    simp only [processTile]
    split
    · exact h
    · split
      · next hsw =>
        split
        · exact h
        · next hdom =>
          split
          · exact h
          · next hseen =>
            refine push_inv st _ _ _ h hsw (by simpa using hdom) ?_
            intro hm
            exact hseen (by simpa [List.contains] using hm)
      · next hsw =>
        split
        · exact h
        · next hdom =>
          split
          · exact h
          · next hseen =>
            refine push_inv st _ _ _ h (startsWith_absolutized _) (by simpa using hdom) ?_
            intro hm
            exact hseen (by simpa [List.contains] using hm)
  | null => exact h
  | bool b => exact h
  | num n => exact h
  | str s => exact h
  | arr xs => exact h

theorem walk_inv_all :
    (∀ (st : ExtractState) (j : JValue), StInv st → StInv (walk st j)) ∧
    (∀ (st : ExtractState) (fs : List (String × JValue)), StInv st → StInv (walkFields st fs)) ∧
    (∀ (st : ExtractState) (xs : List JValue), StInv st → StInv (walkList st xs)) := by
  refine walk.mutual_induct
    (fun st j => StInv st → StInv (walk st j))
    (fun st fs => StInv st → StInv (walkFields st fs))
    (fun st xs => StInv st → StInv (walkList st xs))
    ?_ ?_ ?_ ?_ ?_ ?_ ?_
  · intro st xs ih hst
    simp only [walk]
    exact ih hst
  · refine fun st fs ih hst => ?_
    simp only [walk]
    by_cases hc : tileTypeTest (strField (JValue.obj fs) "cmsType") = true
    · rw [if_pos hc] at ih ⊢
      exact ih (processTile_inv st _ hst)
    · rw [if_neg hc] at ih ⊢
      exact ih hst
  · intro t st harr hobj hst
    cases t with
    | arr xs => exact absurd rfl (harr xs)
    | obj fs => exact absurd rfl (hobj fs)
    | null => simpa [walk] using hst
    | bool b => simpa [walk] using hst
    | num n => simpa [walk] using hst
    | str s => simpa [walk] using hst
  · intro st hst
    simpa [walkList] using hst
  · intro st x xs ih1 ih2 hst
    simp only [walkList]
    exact ih2 (ih1 hst)
  · intro st hst
    simpa [walkFields] using hst
  · intro st k v rest ih1 ih2 hst
    simp only [walkFields]
    exact ih2 (ih1 hst)

theorem fbStep_inv (st : ExtractState) (a : Anchor) (h : StInv st) : StInv (fbStep st a) := by
  simp only [fbStep]
  split
  · next hsw =>
    split
    · exact h
    · next hdom =>
      split
      · exact h
      · next hseen =>
        split
        · exact h
        · refine push_inv st _ _ _ h hsw (by simpa using hdom) ?_
          intro hm
          exact hseen (by simpa [List.contains] using hm)
  · next hsw =>
    split
    · exact h
    · next hdom =>
      split
      · exact h
      · next hseen =>
        split
        · exact h
        · refine push_inv st _ _ _ h (startsWith_absolutized _) (by simpa using hdom) ?_
          intro hm
          exact hseen (by simpa [List.contains] using hm)

theorem foldl_fbStep_inv (anchors : List Anchor) (st : ExtractState) (h : StInv st) :
    StInv (anchors.foldl fbStep st) := by
  induction anchors generalizing st with
  | nil => exact h
  | cons a rest ih => exact ih _ (fbStep_inv st a h)

theorem mem_addSeen_self (seenURLs : List String) (link : String) :
    link ∈ addSeen seenURLs link := by
  unfold addSeen
  split
  · next h => simpa [List.contains] using h
  · exact List.mem_append_right _ (List.mem_singleton.mpr rfl)

theorem mem_addSeen_of_mem {seenURLs : List String} {x : String} (link : String)
    (h : x ∈ seenURLs) : x ∈ addSeen seenURLs link := by
  unfold addSeen
  split
  · exact h
  · exact List.mem_append_left _ h

/-- Claim C1, counterexample: with a parsed state object that yields zero
tiles, the chain returns the empty structured result and does not fall
through to the DOM fallback scrape, even though that next strategy would
return a non-empty sequence on the same document. -/
theorem chain_ignores_empty_structured_result :
    chooseItems (some emptyStateDoc) [richAnchor] = [] ∧
    ¬(fallbackScrape [richAnchor] = []) := by
  constructor
  · show extractTilesFromState emptyStateDoc = []
    simp [extractTilesFromState, emptyStateDoc, walk, walkFields, walkList,
      tileTypeTest, strField, getF, lookupF, jsIncludes, charsInclude, strLeads]
  · decide

/-- Claim C1, amended: the strategy chain dispatches on the presence of a
parsed structured-state object, not on the emptiness of its result: the DOM
scrape runs exactly when the state object is absent (or failed to parse),
and a present state object's extraction result is used even when empty. -/
theorem chain_dispatches_on_state_presence :
    (∀ anchors, chooseItems none anchors = fallbackScrape anchors) ∧
    (∀ stateObj anchors, chooseItems (some stateObj) anchors = extractTilesFromState stateObj) :=
  ⟨fun _ => rfl, fun _ _ => rfl⟩

/-- Claim C2, counterexample: both strategies of the variant-2 homepage
scraper keep a candidate whose absolute href is on a foreign domain, so the
produced link is off the configured target domain. -/
theorem scrape_keeps_offdomain_link :
    (scrapeHomepageTeasers [] [offDomainAnchor]).map Teaser2.link =
        ["https://evil.com/article/x"] ∧
    (scrapeHomepageTeasers [offDomainCard] []).map Teaser2.link =
        ["https://evil.com/article/x"] ∧
    jsIncludes "https://evil.com/article/x" "nationalgeographic.com" = false := by
  refine ⟨by decide, by decide, by decide⟩

/-- Claim C2, amended: every item produced by the structured-state walk or
by the variant-1 last-resort anchor scan has a link that starts with "http"
and contains the target-domain substring "nationalgeographic.com" (the code
tests substring containment, not the URL host; the variant-2 homepage
scraper applies no domain check at all). -/
theorem extracted_links_absolute_on_domain :
    (∀ stateObj t, t ∈ extractTilesFromState stateObj →
        jsStartsWith t.link "http" = true ∧
        jsIncludes t.link "nationalgeographic.com" = true) ∧
    (∀ anchors t, t ∈ fallbackScrape anchors →
        jsStartsWith t.link "http" = true ∧
        jsIncludes t.link "nationalgeographic.com" = true) := by
  constructor
  · intro stateObj t ht
    have h := walk_inv_all.1 ⟨[], []⟩ stateObj ⟨rfl, List.nodup_nil, by intro u hu; cases hu⟩
    exact h.2.2 t ht
  · intro anchors t ht
    have h := foldl_fbStep_inv anchors ⟨[], []⟩ ⟨rfl, List.nodup_nil, by intro u hu; cases hu⟩
    exact h.2.2 t ht

/-- Claim C3, counterexample: a tile with whitespace-only title and a valid
href is not rejected by the structured-state walk: it is stored, with an
empty trimmed title. -/
theorem whitespace_title_stored_with_empty_title :
    extractTilesFromState wsTitleTile =
      [{ title := "", link := "https://www.nationalgeographic.com/a", image := "" }] := by
  simp [extractTilesFromState, wsTitleTile, walk, walkFields, walkList, tileTypeTest,
    strField, getF, lookupF, processTile, ctaUrl, jsOr, pickImage, jsStartsWith,
    jsIncludes, charsInclude, strLeads, baseURL]
  decide

/-- Claim C3, amended: a candidate whose resolved title is the empty string
is rejected and absent from the output even with a valid href; in the
structured-state walk the emptiness test precedes trimming (so
whitespace-only titles pass, as the counterexample shows), while the
variant-2 card scrape trims before testing and so also rejects
whitespace-only titles. -/
theorem empty_title_candidate_rejected :
    (∀ (st : ExtractState) (tile : JValue),
        jsOr (strField tile "title") (strField tile "abstract") = "" →
        processTile st tile = st) ∧
    (∀ c : Card, jsOr (jsTrim c.headlineText) (jsTrim c.titleText) = "" →
        scrapeCard c = none) := by
  constructor
  · intro st tile htitle
    cases tile with
    | obj fs => simp [processTile, htitle]
    | null => rfl
    | bool b => rfl
    | num n => rfl
    | str s => rfl
    | arr xs => rfl
  · intro c htitle
    simp [scrapeCard, htitle]

/-- Claim C3, witness: a tile with an empty resolved title and a valid url
is dropped by the structured walk's tile processor. -/
theorem empty_title_rejected_witness :
    processTile ⟨[], []⟩ (.obj [("url", .str "/a")]) = ⟨[], []⟩ :=
  empty_title_candidate_rejected.1 ⟨[], []⟩ (.obj [("url", .str "/a")]) (by decide)

/-- Claim C4: for every structured-state document, the structured walk
returns a sequence with no duplicate link values: within a single
extraction pass, tiles resolving to an already-collected link are skipped,
independently of the cross-run seen-set (which is not an input here). -/
theorem extract_no_duplicate_links (stateObj : JValue) :
    ((extractTilesFromState stateObj).map TeaserItem.link).Nodup := by
  have h := walk_inv_all.1 ⟨[], []⟩ stateObj ⟨rfl, List.nodup_nil, by intro t ht; cases ht⟩
  rw [extractTilesFromState, h.1]
  exact h.2.1

/-- Claim C5: the new-items filter returns exactly the items whose link is
not a member of the seen-set, in their original order; in particular with
seen-set containing only "<base>/a" and a listing of "<base>/a" and
"<base>/b", it yields exactly the "<base>/b" item. -/
theorem filter_new_keeps_exactly_unseen :
    (∀ (seenURLs : List String) (allItems : List Teaser2) (item : Teaser2),
        item ∈ filterNew seenURLs allItems ↔
          item ∈ allItems ∧ seenURLs.contains item.link = false) ∧
    (∀ (seenURLs : List String) (allItems : List Teaser2),
        List.Sublist (filterNew seenURLs allItems) allItems) ∧
    filterNew ["https://www.nationalgeographic.com/a"] [exItemA, exItemB] = [exItemB] := by
  refine ⟨?_, ?_, by decide⟩
  · intro seenURLs allItems item
    simp [filterNew, List.mem_filter]
  · intro seenURLs allItems
    exact List.filter_sublist allItems

/-- Claim C6: in the enrichment loop's event trace, the k-th item's fetch
is at position 2k and is immediately followed (position 2k+1, before the
next item's fetch at 2k+2) by a persistence of the full seen-set, whose
snapshot contains the initial seen-set and the links of all items processed
so far. -/
theorem seen_checkpoint_after_each_item :
    ∀ (newItems : List Teaser2) (seenURLs : List String) (k : Nat) (item : Teaser2),
      newItems.get? k = some item →
      (enrichTrace newItems seenURLs).get? (2 * k) =
          some (.fetchArticle item.link) ∧
      ∃ snapshot,
        (enrichTrace newItems seenURLs).get? (2 * k + 1) = some (.saveSeen snapshot) ∧
        (∀ x ∈ seenURLs, x ∈ snapshot) ∧
        (∀ j prev, j ≤ k → newItems.get? j = some prev → prev.link ∈ snapshot) := by
  intro newItems
  induction newItems with
  | nil => intro seen k item h; simp [List.get?] at h
  | cons hd tl ih =>
    intro seen k item hk
    cases k with
    | zero =>
      simp only [List.get?] at hk
      injection hk with hk
      subst hk
      refine ⟨rfl, addSeen seen hd.link, rfl, ?_, ?_⟩
      · intro x hx
        exact mem_addSeen_of_mem _ hx
      · intro j prev hj hjp
        rcases Nat.le_zero.mp hj with rfl
        simp only [List.get?] at hjp
        injection hjp with hjp
        subst hjp
        exact mem_addSeen_self _ _
    | succ k =>
      simp only [List.get?] at hk
      obtain ⟨h1, s, h2, hseen, hall⟩ := ih (addSeen seen hd.link) k item hk
      have e2 : 2 * (k + 1) = 2 * k + 1 + 1 := by ring
      have e3 : 2 * (k + 1) + 1 = (2 * k + 1) + 1 + 1 := by ring
      refine ⟨?_, s, ?_, ?_, ?_⟩
      · rw [e2]
        simpa [enrichTrace, List.get?] using h1
      · rw [e3]
        simpa [enrichTrace, List.get?] using h2
      · intro x hx
        exact hseen x (mem_addSeen_of_mem _ hx)
      · intro j prev hj hjp
        cases j with
        | zero =>
          simp only [List.get?] at hjp
          injection hjp with hjp
          subst hjp
          exact hseen _ (mem_addSeen_self _ _)
        | succ j =>
          exact hall j prev (Nat.succ_le_succ_iff.mp hj) (by simpa [List.get?] using hjp)

/-- Claim C6, witness at two concrete items, k = 1. -/
theorem seen_checkpoint_witness :
    (enrichTrace [witNewItem1, witNewItem2] []).get? (2 * 1) =
        some (.fetchArticle witNewItem2.link) ∧
    ∃ snapshot,
      (enrichTrace [witNewItem1, witNewItem2] []).get? (2 * 1 + 1) = some (.saveSeen snapshot) ∧
      (∀ x ∈ ([] : List String), x ∈ snapshot) ∧
      (∀ j prev, j ≤ 1 → [witNewItem1, witNewItem2].get? j = some prev →
          prev.link ∈ snapshot) :=
  seen_checkpoint_after_each_item [witNewItem1, witNewItem2] [] 1 witNewItem2 rfl

/-- Claim C7: the full-article enricher never propagates a fetch failure:
for every URL and every failing fetch outcome, it returns the placeholder
markup fragment, which contains a link to the original URL. -/
theorem enrich_failure_degrades_to_placeholder :
    ∀ (url errorMsg : String),
      fetchFullArticle url (Except.error errorMsg) = articlePlaceholder url ∧
      ∃ before after, fetchFullArticle url (Except.error errorMsg) = before ++ url ++ after := by
  intro url errorMsg
  refine ⟨rfl, "<p><em>Full article could not be loaded. <a href=\"",
    "\">Read on National Geographic</a>.</em></p>", ?_⟩
  simp [fetchFullArticle, articlePlaceholder, String.append_assoc]

/-- Claim C8: loading the seen-set yields the empty set when the resource
is absent, unreadable or malformed (unparseable JSON, or any parsed JSON
value that is not an array), and exactly the stored members when it is an
array. -/
theorem load_seen_recovers_and_reads_arrays :
    loadSeenURLs .absent = [] ∧ loadSeenURLs .unreadable = [] ∧
    loadSeenURLs .unparseable = [] ∧ loadSeenURLs (.parsed .null) = [] ∧
    (∀ b, loadSeenURLs (.parsed (.bool b)) = []) ∧
    (∀ n, loadSeenURLs (.parsed (.num n)) = []) ∧
    (∀ s, loadSeenURLs (.parsed (.str s)) = []) ∧
    (∀ fs, loadSeenURLs (.parsed (.obj fs)) = []) ∧
    (∀ xs v, v ∈ loadSeenURLs (.parsed (.arr xs)) ↔ v ∈ xs) := by
  refine ⟨rfl, rfl, rfl, rfl, fun _ => rfl, fun _ => rfl, fun _ => rfl, fun _ => rfl,
    fun xs v => Iff.rfl⟩

/-- Claim C9: image resolution prefers the "16x9" crop, then "3x2", then
the first listed crop (whenever the chosen crop's url is non-empty), falls
back to the raw `src` then `rt` fields when there are no crops, and returns
the empty string when nothing is found; on the crop list
`[{nm:"3x2",url:"X"},{nm:"16x9",url:"Y"}]` it resolves to "Y". -/
theorem pickImage_prefers_16x9_then_3x2_then_first :
    (∀ img crps crop, getF img "crps" = some (.arr crps) →
        findCrop "16x9" crps = some crop → ¬(strField crop "url" = "") →
        pickImage (some img) = strField crop "url") ∧
    (∀ img crps crop, getF img "crps" = some (.arr crps) →
        findCrop "16x9" crps = none → findCrop "3x2" crps = some crop →
        ¬(strField crop "url" = "") →
        pickImage (some img) = strField crop "url") ∧
    (∀ img crps crop, getF img "crps" = some (.arr crps) →
        findCrop "16x9" crps = none → findCrop "3x2" crps = none →
        crps.head? = some crop → ¬(strField crop "url" = "") →
        pickImage (some img) = strField crop "url") ∧
    (∀ img, getF img "crps" = none →
        pickImage (some img) = jsOr (strField img "src") (strField img "rt")) ∧
    (∀ img, getF img "crps" = some (.arr []) →
        pickImage (some img) = jsOr (strField img "src") (strField img "rt")) ∧
    pickImage none = "" ∧ pickImage (some (.obj [])) = "" ∧
    pickImage (some exampleCropImg) = "Y" := by
  refine ⟨?_, ?_, ?_, ?_, ?_, rfl, rfl, by decide⟩
  · intro img crps crop h1 h2 h3
    simp only [pickImage, h1, h2, jsOr, beq_iff_eq]
    simp [h3]
  · intro img crps crop h1 h2 h3 h4
    simp only [pickImage, h1, h2, h3, jsOr, beq_iff_eq]
    simp [h4]
  · intro img crps crop h1 h2 h3 h4 h5
    simp only [pickImage, h1, h2, h3, h4, jsOr, beq_iff_eq]
    simp [h5]
  · intro img h1
    simp only [pickImage, h1]
  · intro img h1
    simp only [pickImage, h1]
    rfl

/-- Claim C9, witness: a 3x2-only crop list resolves to that crop's url. -/
theorem pickImage_witness :
    pickImage (some (.obj [("crps", .arr [crop32Only])])) = strField crop32Only "url" :=
  pickImage_prefers_16x9_then_3x2_then_first.2.1 (.obj [("crps", .arr [crop32Only])])
    [crop32Only] crop32Only rfl rfl rfl (by decide)

/-- Claim C10: an object node is offered to tile processing if and only if
its `cmsType` string contains the substring "Tile"; the two extra equality
tests against "ArticleNavTile" and "FeaturedContentTile" are subsumed by the
substring test. -/
theorem tile_test_is_substring_test (cmsType : String) :
    tileTypeTest cmsType = jsIncludes cmsType "Tile" := by
  unfold tileTypeTest
  cases h : jsIncludes cmsType "Tile" with
  | true => simp [h]
  | false =>
    cases h1 : cmsType == "ArticleNavTile" with
    | true =>
      have : cmsType = "ArticleNavTile" := eq_of_beq h1
      subst this
      have : jsIncludes "ArticleNavTile" "Tile" = true := by decide
      rw [this] at h
      exact absurd h (by simp)
    | false =>
      cases h2 : cmsType == "FeaturedContentTile" with
      | true =>
        have : cmsType = "FeaturedContentTile" := eq_of_beq h2
        subst this
        have : jsIncludes "FeaturedContentTile" "Tile" = true := by decide
        rw [this] at h
        exact absurd h (by simp)
      | false => simp [h, h1, h2]

end NgRss
